import Mathlib

/-!
Verification development for the ninja-debugger-plugin debugging engine.

The definitions below are a shallow embedding of the Python sources:

* `src/debugger_plugin/ndb3/ndb3.py` — the `Ndb3` session (breakpoint
  registry, trace dispatch) and the per-thread controller `Ndb3Thread`
  (stepping state machine, stop-frame computation, evaluate/execute,
  stack walking).
* `src/debugger-plugin/serialize.py` — the recursive value serializer
  `GenericSerializer.serialize`.
* `src/debugger-plugin/ndb.py` — the master-side RPC proxy
  `DebuggerMaster`.

Python objects are modelled as plain Lean data; Python exceptions are
modelled explicitly (`Except` / outcome types); external runtime
facilities (`os.path.abspath`, `eval`, `exec`, the RPC transport) are
modelled as function-valued oracles carried in the corresponding
structures or passed as arguments.
-/

set_option autoImplicit false

/-- The four state constants `STATE_INITIALIZED`, `STATE_RUNNING`,
`STATE_PAUSED`, `STATE_TERMINATED` of `ndb3.py`. -/
inductive DState : Type where
  | initialized
  | running
  | paused
  | terminated
deriving DecidableEq, Repr

/-- The stepping commands `Ndb3Thread.CMD_RUN`, `CMD_STEP_OVER`,
`CMD_STEP_INTO`, `CMD_STEP_OUT` (string constants in the source; the
code compares them with `is`, which coincides with equality here since
they are only ever assigned from the class constants). -/
inductive Cmd : Type where
  | run
  | stepOver
  | stepInto
  | stepOut
deriving DecidableEq, Repr

/-- Trace event kinds delivered by the Python runtime to a trace
function: `call`, `line`, `return`, `exception`.  The source compares
the event argument with string literals using `is`, which agrees with
string equality for the interned event names CPython passes. -/
inductive Event : Type where
  | call
  | line
  | ret
  | exception
deriving DecidableEq, Repr

/-- Python exceptions that the embedded code can raise.  Only the kinds
the claims need are distinguished. -/
inductive PyExc : Type where
  /-- `AttributeError` (attribute access on `None`). -/
  | attributeError
  /-- `TypeError` (calling a non-callable object). -/
  | typeError
  /-- `ndb.DebuggerConnectionError`. -/
  | debuggerConnectionError
  /-- Any other exception, identified by its class name. -/
  | otherError (ename : String)
deriving DecidableEq, Repr

/-- The data of one Python stack frame that the engine reads:
`f_code.co_filename` and `f_lineno`.  `ident` stands for the object
identity of the frame, so that structurally equal `Frame` values model
frames for which the Python `is` comparison succeeds. -/
structure FrameData : Type where
  ident : Nat
  filename : String
  lineno : Nat
deriving DecidableEq, Repr

/-- A Python frame: its own data plus the chain of caller frames
reachable through `f_back` (innermost caller first).  This models the
`f_back` linked list as an explicit list. -/
structure Frame : Type where
  data : FrameData
  backChain : List FrameData
deriving DecidableEq, Repr

/-- `frame.f_back`: the caller frame, or `none` at the bottom of the
stack. -/
def Frame.back (f : Frame) : Option Frame :=
  match f.backChain with
  | [] => none
  | d :: rest => some ⟨d, rest⟩

/-- `frame.f_code.co_filename`. -/
def Frame.filename (f : Frame) : String := f.data.filename

/-- `frame.f_lineno`. -/
def Frame.lineno (f : Frame) : Nat := f.data.lineno

/-- Debugger messages produced by `DebugMessageFactory` in `ndb3.py`. -/
inductive Msg : Type where
  | nop
  | threadStarted (id : Nat)
  | threadSuspended (id : Nat) (file : String) (line : Nat)
  | threadEnded (id : Nat)
deriving DecidableEq, Repr

/-- First-match lookup in an association list, modelling
`fullpath in self._breakpoints` / `self._breakpoints.get(fullpath, [])`
on the Python dict (a Python dict has unique keys; the first match is
the only match on states reachable through the API). -/
def bpLookup (path : String) : List (String × List Nat) → Option (List Nat)
  | [] => none
  | (p, ls) :: rest => if p = path then some ls else bpLookup path rest

/-- Replace the value stored for `path` (first matching entry),
modelling in-place mutation of the list object held by the dict. -/
def bpUpdate (path : String) (ls : List Nat) :
    List (String × List Nat) → List (String × List Nat)
  | [] => []
  | (p, ls0) :: rest =>
    if p = path then (p, ls) :: rest else (p, ls0) :: bpUpdate path ls rest

/-- The `Ndb3` debugging session of `ndb3.py` (the parts the claims
touch).  `abspath` models `os.path.abspath`; `breakpoints` models the
`self._breakpoints` dict mapping absolute path to the list of
breakpoint lines; `messages` models the `self._messages` queue.  The
weak thread registry is not needed by any claim and is omitted. -/
structure Ndb3 : Type where
  s_file : String
  state : DState
  messages : List Msg
  breakpoints : List (String × List Nat)
  abspath : String → String

/-- `Ndb3.put_message`: append a message to the session queue. -/
def Ndb3.put_message (d : Ndb3) (m : Msg) : Ndb3 :=
  { d with messages := d.messages ++ [m] }

/-- `Ndb3.get_messages`: drain the queue, returning all queued
messages. -/
def Ndb3.get_messages (d : Ndb3) : Ndb3 × List Msg :=
  ({ d with messages := [] }, d.messages)

/-- `Ndb3.set_breakpoint(filename, line)`:

    fullpath = os.path.abspath(filename)
    lines = self._breakpoints.setdefault(fullpath, [])
    if not line in lines:
        lines.append(line)
-/
def Ndb3.set_breakpoint (d : Ndb3) (filename : String) (line : Nat) : Ndb3 :=
  let fullpath := d.abspath filename
  match bpLookup fullpath d.breakpoints with
  | some lines =>
    if line ∈ lines then d
    else { d with breakpoints := bpUpdate fullpath (lines ++ [line]) d.breakpoints }
  | none =>
    { d with breakpoints := d.breakpoints ++ [(fullpath, [line])] }

/-- `Ndb3.is_breakpoint(filename, line)`:

    fullpath = os.path.abspath(filename)
    if fullpath in self._breakpoints:
        f_breaks = self._breakpoints.get(fullpath, [])
        return line in f_breaks
    return False
-/
def Ndb3.is_breakpoint (d : Ndb3) (filename : String) (line : Nat) : Bool :=
  let fullpath := d.abspath filename
  match bpLookup fullpath d.breakpoints with
  | some f_breaks => line ∈ f_breaks
  | none => false

/-- The per-thread controller `Ndb3Thread` of `ndb3.py`.  Field names
follow the source (`self._id`, `self._name`, `self._f_origin`,
`self._f_current`, `self._f_stop`, `self._f_cmd`, `self._state`,
`self._debugger`); fields that the source sets to `None` in `stop()`
are `Option`-typed.  The back reference `self._debugger` is modelled by
embedding the session value (`ndb3.py` never stores this thread inside
`Ndb3`'s weak registry in a way any claim depends on, so there is no
circularity). -/
structure Ndb3Thread : Type where
  tid : Nat
  name : String
  f_origin : Option Frame
  f_current : Option Frame
  f_stop : Option Frame
  f_cmd : Option Cmd
  state : DState
  debugger : Option Ndb3

/-- `frame.f_code.co_filename` / `frame.f_lineno` fed to
`self._debugger.is_breakpoint` — the breakpoint test `_stop_frame`
performs, including the `AttributeError` that accessing
`self._debugger` raises when the debugger reference has been cleared
(`self._debugger = None` in `stop()`). -/
def Ndb3Thread.bp_check (t : Ndb3Thread) (frame : Frame) : Except PyExc Bool :=
  match t.debugger with
  | none => .error .attributeError
  | some dbg => .ok (dbg.is_breakpoint frame.filename frame.lineno)

/-- `Ndb3Thread._stop_frame(frame, event)`: returns the updated thread
(the method assigns `self._f_current` in the `return`-event branches)
together with the stop frame, or `none` when the thread does not have
to stop, or the exception raised by the breakpoint lookup.  Direct
transcription of the source:

    if event is 'return':
        if self._f_cmd is Ndb3Thread.CMD_STEP_INTO:
            self._f_current = frame.f_back
            return frame.f_back
        stops = [Ndb3Thread.CMD_STEP_OVER, Ndb3Thread.CMD_STEP_OUT]
        if self._f_cmd in stops and frame is self._f_stop:
            self._f_current = frame.f_back
            return frame.f_back
    if event is 'line':
        if self._f_cmd is Ndb3Thread.CMD_STEP_INTO:
            return frame
        if self._f_cmd is Ndb3Thread.CMD_STEP_OVER:
            if frame is self._f_stop:
                return frame
    f_path = frame.f_code.co_filename
    f_line = frame.f_lineno
    if self._debugger.is_breakpoint(f_path, f_line):
        return frame
    return None
-/
def Ndb3Thread.stop_frame (t : Ndb3Thread) (frame : Frame) (event : Event) :
    Ndb3Thread × Except PyExc (Option Frame) :=
  if event = .ret ∧ t.f_cmd = some .stepInto then
    ({ t with f_current := frame.back }, .ok frame.back)
  else if event = .ret ∧ (t.f_cmd = some .stepOver ∨ t.f_cmd = some .stepOut) ∧
      t.f_stop = some frame then
    ({ t with f_current := frame.back }, .ok frame.back)
  else if event = .line ∧ t.f_cmd = some .stepInto then
    (t, .ok (some frame))
  else if event = .line ∧ t.f_cmd = some .stepOver ∧ t.f_stop = some frame then
    (t, .ok (some frame))
  else
    match t.bp_check frame with
    | .error e => (t, .error e)
    | .ok true => (t, .ok (some frame))
    | .ok false => (t, .ok none)

/-- The step-mode portion of `_stop_frame` (its first two `if` blocks)
in isolation: the stop point designated by the stepping rules alone,
`none` when they designate no stop point. -/
def Ndb3Thread.step_rule_frame (t : Ndb3Thread) (frame : Frame) (event : Event) :
    Option Frame :=
  if event = .ret ∧ t.f_cmd = some .stepInto then frame.back
  else if event = .ret ∧ (t.f_cmd = some .stepOver ∨ t.f_cmd = some .stepOut) ∧
      t.f_stop = some frame then frame.back
  else if event = .line ∧ t.f_cmd = some .stepInto then some frame
  else if event = .line ∧ t.f_cmd = some .stepOver ∧ t.f_stop = some frame then
    some frame
  else none

/-- Whether any guard of the step-mode rules in `_stop_frame` matches
(i.e. one of its early `return` statements runs), regardless of the
value returned. -/
def Ndb3Thread.step_rule_fires (t : Ndb3Thread) (frame : Frame) (event : Event) :
    Prop :=
  (event = .ret ∧ (t.f_cmd = some .stepInto ∨
    ((t.f_cmd = some .stepOver ∨ t.f_cmd = some .stepOut) ∧ t.f_stop = some frame))) ∨
  (event = .line ∧ (t.f_cmd = some .stepInto ∨
    (t.f_cmd = some .stepOver ∧ t.f_stop = some frame)))

instance (t : Ndb3Thread) (frame : Frame) (event : Event) :
    Decidable (t.step_rule_fires frame event) := by
  unfold Ndb3Thread.step_rule_fires
  infer_instance

/-- `Ndb3Thread.stop()`:

    msg = DebugMessageFactory.make_thread_ended(self._id)
    self._debugger.put_message(msg)
    self._f_origin = None
    self._f_current = None
    self._f_stop = None
    self._f_cmd = None
    self._state = STATE_TERMINATED
    self._debugger = None

Emitted messages are returned alongside the new thread value (in the
source they land in the session's shared queue).  When `self._debugger`
is already `None` (the thread was stopped before), `put_message` raises
`AttributeError` and the remaining assignments do not run. -/
def Ndb3Thread.stop (t : Ndb3Thread) : Ndb3Thread × List Msg × Option PyExc :=
  match t.debugger with
  | none => (t, [], some .attributeError)
  | some _ =>
    ({ t with f_origin := none, f_current := none, f_stop := none,
              f_cmd := none, state := .terminated, debugger := none },
     [.threadEnded t.tid], none)

/-- `Ndb3Thread.resume()`: clears the stop frame, sets `CMD_RUN`, sets
the state to `STATE_RUNNING` and returns it. -/
def Ndb3Thread.resume (t : Ndb3Thread) : Ndb3Thread × DState :=
  let t' := { t with f_stop := none, f_cmd := some .run, state := .running }
  (t', t'.state)

/-- `Ndb3Thread.step_over()`: `self._f_stop = self._f_current`,
`CMD_STEP_OVER`, state `STATE_RUNNING`. -/
def Ndb3Thread.step_over (t : Ndb3Thread) : Ndb3Thread :=
  { t with f_stop := t.f_current, f_cmd := some .stepOver, state := .running }

/-- `Ndb3Thread.step_into()`: `self._f_stop = None`, `CMD_STEP_INTO`,
state `STATE_RUNNING`. -/
def Ndb3Thread.step_into (t : Ndb3Thread) : Ndb3Thread :=
  { t with f_stop := none, f_cmd := some .stepInto, state := .running }

/-- `Ndb3Thread.step_out()`: `self._f_stop = self._f_current`,
`CMD_STEP_OUT`, state `STATE_RUNNING`. -/
def Ndb3Thread.step_out (t : Ndb3Thread) : Ndb3Thread :=
  { t with f_stop := t.f_current, f_cmd := some .stepOut, state := .running }

/-- What `Ndb3Thread.trace_dispatch` hands back to the runtime. -/
inductive TraceOutcome : Type where
  /-- `return None` — stop tracing this frame. -/
  | traceNone
  /-- `return self.trace_dispatch` — keep tracing with this thread's
  dispatch. -/
  | traceSelf
  /-- An exception escaped the dispatch call. -/
  | raised (e : PyExc)
deriving DecidableEq, Repr

/-- `Ndb3Thread.trace_dispatch(frame, event, arg)`:

    if event == 'return' and frame is self._f_origin:
        self.stop()
    if self._state == STATE_TERMINATED:
        return None
    self._f_current = frame
    s_frame = self._stop_frame(frame, event)
    if s_frame:
        self._state = STATE_PAUSED
        msg = DebugMessageFactory.make_thread_suspended(self._id, s_frame)
        self._debugger.put_message(msg)
        self._wait()
    return self.trace_dispatch

`_wait()` blocks the traced thread while the state stays
`STATE_PAUSED`; the returned thread value with state `paused` models
the controller blocked inside `_wait` (another actor must change the
state for execution to continue).  Emitted messages are returned as a
list. -/
def Ndb3Thread.trace_dispatch (t : Ndb3Thread) (frame : Frame) (event : Event) :
    Ndb3Thread × List Msg × TraceOutcome :=
  let step1 : Ndb3Thread × List Msg × Option PyExc :=
    if event = .ret ∧ t.f_origin = some frame then t.stop else (t, [], none)
  match step1 with
  | (t1, msgs, some e) => (t1, msgs, .raised e)
  | (t1, msgs, none) =>
    if t1.state = .terminated then (t1, msgs, .traceNone)
    else
      let t2 := { t1 with f_current := some frame }
      match t2.stop_frame frame event with
      | (t3, .error e) => (t3, msgs, .raised e)
      | (t3, .ok none) => (t3, msgs, .traceSelf)
      | (t3, .ok (some sf)) =>
        let t4 := { t3 with state := .paused }
        match t4.debugger with
        | none => (t4, msgs, .raised .attributeError)
        | some _ =>
          (t4, msgs ++ [.threadSuspended t4.tid sf.filename sf.lineno], .traceSelf)

/-- The module constant `_IGNORE_FILES` of `ndb3.py`, transcribed with
its missing comma: the adjacent string literals `'serialize.py'`
`'weakref.py'` concatenate into the single entry
`"serialize.pyweakref.py"`. -/
def ignoreFiles : List String :=
  ["threading.py", "process.py", "ndb3.py", "serialize.pyweakref.py"]

/-- Helper for `basename`: scan the characters, resetting the
accumulated component at every slash. -/
def basenameAux : List Char → List Char → List Char
  | acc, [] => acc
  | acc, c :: rest =>
    if c = '/' then basenameAux [] rest else basenameAux (acc ++ [c]) rest

/-- `os.path.basename` (POSIX): the component after the last slash. -/
def basename (p : String) : String :=
  String.mk (basenameAux [] p.data)

/-- The loop of `Ndb3Thread.get_stack`, expressed on the frame chain
(innermost frame first): keep `(basename, lineno)` of every frame whose
basename is not in `_IGNORE_FILES`; `stack.insert(0, ...)` while
walking inward-to-outward puts the innermost kept frame last. -/
def stack_walk_chain : List FrameData → List (String × Nat)
  | [] => []
  | d :: rest =>
    let tail := stack_walk_chain rest
    let b := basename d.filename
    if b ∈ ignoreFiles then tail else tail ++ [(b, d.lineno)]

/-- The loop body of `Ndb3Thread.get_stack` as written, starting from a
frame reference: walk the `f_back` chain from the given frame. -/
def stack_walk : Option Frame → List (String × Nat)
  | none => []
  | some f => stack_walk_chain (f.data :: f.backChain)

/-- Calling a value that holds a frame object or `None`, as the first
statement of `get_stack` does (`index_f = self._f_current()`): neither
a frame nor `None` is callable, so the call raises `TypeError`. -/
def pyCallFrameOpt (f : Option Frame) : Except PyExc Frame :=
  match f with
  | none => .error .typeError
  | some _ => .error .typeError

/-- `Ndb3Thread.get_stack()`:

    stack = []
    index_f = self._f_current()        # <- calls the frame object
    while index_f is not None:
        f_name = os.path.basename(index_f.f_code.co_filename)
        f_line = index_f.f_lineno
        if not f_name in _IGNORE_FILES:
            stack.insert(0, (f_name, f_line))
        index_f = index_f.f_back
    return stack

The first statement calls `self._f_current()`; `_f_current` holds a
frame object (or `None`), which is not callable, so `get_stack` raises
`TypeError` before the walk runs.  (The call syntax is a leftover from
a revision in which `_f_current` was a weak reference.) -/
def Ndb3Thread.get_stack (t : Ndb3Thread) : Except PyExc (List (String × Nat)) :=
  match pyCallFrameOpt t.f_current with
  | .error e => .error e
  | .ok f => .ok (stack_walk (some f))

/-- A fault raised while evaluating or executing user-supplied code in
the debuggee: a `SyntaxError`, or any other runtime error derived from
`Exception` (identified by its class name) — the taxonomy
`Ndb3Thread.evaluate` / `Ndb3Thread.execute` handle. -/
inductive PyRaise : Type where
  | syntaxError (msg : String)
  | runtimeError (ename msg : String)
deriving DecidableEq, Repr

/-- The value `Ndb3Thread.evaluate` / `DebuggerSlave.do_eval` store in
`result`: either the evaluated object or the caught exception object
itself (`result = serr` / `result = err`). -/
inductive EvalValue (α : Type) : Type where
  | val (v : α)
  | excObj (e : PyRaise)
deriving DecidableEq, Repr

/-- `Ndb3Thread.evaluate(expr)`:

    try:
        result = eval(expr, self._f_current.f_globals,
                      self._f_current.f_locals)
    except SyntaxError as serr:
        result = serr
    except Exception as err:
        result = err
    return result

`eval` is modelled by the oracle `pyEval`, which may produce a value or
raise.  The attribute accesses `self._f_current.f_globals` /
`.f_locals` happen inside the `try` block, so when `_f_current` is
`None` the resulting `AttributeError` is also caught by the
`except Exception` arm. -/
def Ndb3Thread.evaluate {α : Type} (pyEval : String → Frame → Except PyRaise α)
    (t : Ndb3Thread) (expr : String) : Except PyRaise (EvalValue α) :=
  let body : Except PyRaise α :=
    match t.f_current with
    | none => .error (.runtimeError "AttributeError"
        "NoneType object has no attribute f_globals")
    | some f => pyEval expr f
  match body with
  | .ok v => .ok (.val v)
  | .error (.syntaxError m) => .ok (.excObj (.syntaxError m))
  | .error (.runtimeError n m) => .ok (.excObj (.runtimeError n m))

/-- A compiled code object (`compile(source=expr, filename="<string>",
mode='exec')`); its content is irrelevant to the claims. -/
structure Code : Type where
  src : String
deriving DecidableEq, Repr

/-- The value `Ndb3Thread.execute` stores in `result`: the empty string
success marker, or the caught exception object. -/
inductive ExecResult : Type where
  | emptyStr
  | excObj (e : PyRaise)
deriving DecidableEq, Repr

/-- `Ndb3Thread.execute(expr)`:

    try:
        c_code = compile(source=expr, filename="<string>", mode='exec')
        exec c_code in self._f_current.f_globals, self._f_current.f_locals
        result = ""
    except SyntaxError as serr:
        result = serr
    except Exception as err:
        result = err
    return result

`compile` and `exec` are modelled by the oracles `pyCompile` and
`pyExec`; both run inside the `try` block, as does the attribute access
on `self._f_current`. -/
def Ndb3Thread.execute (pyCompile : String → Except PyRaise Code)
    (pyExec : Code → Frame → Except PyRaise Unit)
    (t : Ndb3Thread) (expr : String) : Except PyRaise ExecResult :=
  let body : Except PyRaise Unit :=
    match pyCompile expr with
    | .error e => .error e
    | .ok c_code =>
      match t.f_current with
      | none => .error (.runtimeError "AttributeError"
          "NoneType object has no attribute f_globals")
      | some f => pyExec c_code f
  match body with
  | .ok _ => .ok .emptyStr
  | .error (.syntaxError m) => .ok (.excObj (.syntaxError m))
  | .error (.runtimeError n m) => .ok (.excObj (.runtimeError n m))

/-- A value travelling over the RPC channel of `ndb.py` (opaque to the
master's control logic). -/
inductive RpcValue : Type where
  | vstr (s : String)
  | vint (n : Int)
deriving DecidableEq, Repr

/-- Outcome of invoking a bound remote method `func(*args)` on the
`xmlrpclib` proxy: a returned value, a raised `socket.error`, or some
other raised exception. -/
inductive RpcOutcome : Type where
  | ok (v : RpcValue)
  | socketError
  | otherExc (ename : String)
deriving DecidableEq, Repr

/-- The slave proxy (`xmlrpclib.Server`): attribute lookup on it yields
bound remote methods; `call` is the oracle giving the outcome of
invoking the method of a given name on given arguments. -/
structure Slave : Type where
  call : String → List RpcValue → RpcOutcome

/-- `ndb.DebuggerMaster`: `self.host`, `self.port`, and `self.slave`,
which is `None` until `connect()` assigns the proxy. -/
structure DebuggerMaster : Type where
  host : String
  port : Nat
  slave : Option Slave

/-- The attribute lookup `self.slave.<name>` performed at each command
method's call site, before `__safe_call` is entered: on `None` it
raises `AttributeError`; on a live proxy it yields the bound remote
method. -/
def DebuggerMaster.slaveAttr (m : DebuggerMaster) (name : String) :
    Except PyExc (List RpcValue → RpcOutcome) :=
  match m.slave with
  | none => .error .attributeError
  | some sl => .ok (sl.call name)

/-- `DebuggerMaster.__safe_call(func, *args)`:

    if self.slave is None:
        return
    self.lock.acquire()
    try:
        return func(*args)
    except socket.error:
        raise DebuggerConnectionError("No connection could be made ...")
    finally:
        self.lock.release()

The lock only serializes concurrent calls and is not modelled.  The
result is `none` for the bare `return`, `some v` for a value returned
by the remote call. -/
def DebuggerMaster.safe_call (m : DebuggerMaster)
    (func : List RpcValue → RpcOutcome) (args : List RpcValue) :
    Except PyExc (Option RpcValue) :=
  match m.slave with
  | none => .ok none
  | some _ =>
    match func args with
    | .ok v => .ok (some v)
    | .socketError => .error .debuggerConnectionError
    | .otherExc n => .error (.otherError n)

/-- Shared shape of the `DebuggerMaster` command methods that return
the `__safe_call` result (`get_events`, `debug_eval`, `debug_exec`):
`return self.__safe_call(self.slave.<name>, *args)`.  The argument
`self.slave.<name>` is evaluated first. -/
def DebuggerMaster.callReturning (m : DebuggerMaster) (name : String)
    (args : List RpcValue) : Except PyExc (Option RpcValue) :=
  match m.slaveAttr name with
  | .error e => .error e
  | .ok func => m.safe_call func args

/-- Shared shape of the `DebuggerMaster` command methods that drop the
`__safe_call` result and fall off the end (returning `None`):
`self.__safe_call(self.slave.<name>, *args)`. -/
def DebuggerMaster.callDiscarding (m : DebuggerMaster) (name : String)
    (args : List RpcValue) : Except PyExc (Option RpcValue) :=
  match m.slaveAttr name with
  | .error e => .error e
  | .ok func =>
    match m.safe_call func args with
    | .error e => .error e
    | .ok _ => .ok none

/-- `DebuggerMaster.get_events()`:
`return self.__safe_call(self.slave.get_events)`. -/
def DebuggerMaster.get_events (m : DebuggerMaster) : Except PyExc (Option RpcValue) :=
  m.callReturning "get_events" []

/-- `DebuggerMaster.set_break(fname, line)`:
`self.__safe_call(self.slave.set_break, fname, line)`. -/
def DebuggerMaster.set_break (m : DebuggerMaster) (fname line : RpcValue) :
    Except PyExc (Option RpcValue) :=
  m.callDiscarding "set_break" [fname, line]

/-- `DebuggerMaster.debug_stop()`:
`self.__safe_call(self.slave.do_stop)`. -/
def DebuggerMaster.debug_stop (m : DebuggerMaster) : Except PyExc (Option RpcValue) :=
  m.callDiscarding "do_stop" []

/-- `DebuggerMaster.debug_over()`:
`self.__safe_call(self.slave.do_over)`. -/
def DebuggerMaster.debug_over (m : DebuggerMaster) : Except PyExc (Option RpcValue) :=
  m.callDiscarding "do_over" []

/-- `DebuggerMaster.debug_into()`:
`self.__safe_call(self.slave.do_into)`. -/
def DebuggerMaster.debug_into (m : DebuggerMaster) : Except PyExc (Option RpcValue) :=
  m.callDiscarding "do_into" []

/-- `DebuggerMaster.debug_out()`:
`self.__safe_call(self.slave.do_out)`. -/
def DebuggerMaster.debug_out (m : DebuggerMaster) : Except PyExc (Option RpcValue) :=
  m.callDiscarding "do_out" []

/-- `DebuggerMaster.debug_continue()`:
`self.__safe_call(self.slave.do_continue)`. -/
def DebuggerMaster.debug_continue (m : DebuggerMaster) : Except PyExc (Option RpcValue) :=
  m.callDiscarding "do_continue" []

/-- `DebuggerMaster.debug_eval(expression)`:
`return self.__safe_call(self.slave.do_eval, expression)`. -/
def DebuggerMaster.debug_eval (m : DebuggerMaster) (expression : RpcValue) :
    Except PyExc (Option RpcValue) :=
  m.callReturning "do_eval" [expression]

/-- `DebuggerMaster.debug_exec(expression)`:
`return self.__safe_call(self.slave.do_exec, expression)`. -/
def DebuggerMaster.debug_exec (m : DebuggerMaster) (expression : RpcValue) :
    Except PyExc (Option RpcValue) :=
  m.callReturning "do_exec" [expression]

mutual
/-- A Python runtime value, to the extent `GenericSerializer`
(`serialize.py`) inspects it.  The scalar constructors correspond to
the types named in `GenericSerializer.plain_types`
(`bool, buffer, file, float, int, long, type(None), object, slice, str,
type` — `vint` covers both `int` and `long`, `vobject` is a direct
instance of `object`); the compound constructors cover `dict`,
`list`/`tuple`, and instances of user classes (whose attribute list
models `dir(result)`, each attribute either readable or raising on
`getattr`). -/
inductive PyVal : Type where
  | vbool (b : Bool)
  | vint (i : Int)
  | vfloat (r : String)
  | vstr (s : String)
  | vnone
  | vfile
  | vbuffer
  | vslice
  | vtype (tname : String)
  | vobject
  | vdict (entries : PyEntries)
  | vlist (elems : PyVals)
  | vtuple (elems : PyVals)
  | vinst (tname : String) (attrs : PyAttrs)

/-- A list of Python values (elements of a `list` or `tuple`). -/
inductive PyVals : Type where
  | nil
  | cons (v : PyVal) (rest : PyVals)

/-- The entries of a Python `dict`, in `result.items()` order. -/
inductive PyEntries : Type where
  | nil
  | cons (k : PyVal) (v : PyVal) (rest : PyEntries)

/-- The attributes of an object, in `dir(result)` order; `consErr`
marks an attribute whose `getattr` raises. -/
inductive PyAttrs : Type where
  | nil
  | consOk (aname : String) (v : PyVal) (rest : PyAttrs)
  | consErr (aname : String) (rest : PyAttrs)
end

/-- `type(result).__name__`. -/
def typeNameOf : PyVal → String
  | .vbool _ => "bool"
  | .vint _ => "int"
  | .vfloat _ => "float"
  | .vstr _ => "str"
  | .vnone => "NoneType"
  | .vfile => "file"
  | .vbuffer => "buffer"
  | .vslice => "slice"
  | .vtype _ => "type"
  | .vobject => "object"
  | .vdict _ => "dict"
  | .vlist _ => "list"
  | .vtuple _ => "tuple"
  | .vinst tname _ => tname

/-- `result_type in GenericSerializer.plain_types` with
`plain_types = [bool, buffer, file, float, int, long, type(None),
object, slice, str, type]` (an exact type-identity test, not
`isinstance`). -/
def isPlainType : PyVal → Bool
  | .vbool _ => true
  | .vbuffer => true
  | .vfile => true
  | .vfloat _ => true
  | .vint _ => true
  | .vnone => true
  | .vobject => true
  | .vslice => true
  | .vstr _ => true
  | .vtype _ => true
  | _ => false

mutual
/-- `repr(result)` (the exact rendered text is irrelevant to every
claim; this is a straightforward model of the Python `repr`). -/
def reprPy : PyVal → String
  | .vbool b => if b then "True" else "False"
  | .vint i => toString i
  | .vfloat r => r
  | .vstr s => "\x27" ++ s ++ "\x27"
  | .vnone => "None"
  | .vfile => "<open file>"
  | .vbuffer => "<buffer>"
  | .vslice => "slice(None, None, None)"
  | .vtype tname => "<type \x27" ++ tname ++ "\x27>"
  | .vobject => "<object object>"
  | .vdict es => "\x7b" ++ reprEntries es ++ "\x7d"
  | .vlist vs => "[" ++ reprVals vs ++ "]"
  | .vtuple vs => "(" ++ reprVals vs ++ ")"
  | .vinst tname _ => "<" ++ tname ++ " instance>"

/-- Comma-separated `repr` of sequence elements. -/
def reprVals : PyVals → String
  | .nil => ""
  | .cons v .nil => reprPy v
  | .cons v rest => reprPy v ++ ", " ++ reprVals rest

/-- Comma-separated `repr` of dict entries. -/
def reprEntries : PyEntries → String
  | .nil => ""
  | .cons k v .nil => reprPy k ++ ": " ++ reprPy v
  | .cons k v rest => reprPy k ++ ": " ++ reprPy v ++ ", " ++ reprEntries rest
end

mutual
/-- The dictionary `s_res` built by `GenericSerializer.serialize`:
`name`, `expr`, `value`, `type`, `has_childs`, and — only when the code
reaches `s_res['childs'] = []` — a `childs` list.  In the source `name`
is whatever Python object was passed (a dict key, a sequence index or
an attribute name string), hence `name : PyVal`. -/
inductive SNode : Type where
  | mk (name : PyVal) (expr : String) (value : String) (tname : String)
       (has_childs : Bool) (childs : SChilds)

/-- The `childs` key of a serialized node: absent (the code returned
before `s_res['childs'] = []`) or present with a list. -/
inductive SChilds : Type where
  | absent
  | present (l : SNodeList)

/-- A list of serialized child nodes. -/
inductive SNodeList : Type where
  | nil
  | cons (n : SNode) (rest : SNodeList)
end

/-- The `name` field of a serialized node. -/
def SNode.name : SNode → PyVal
  | .mk n _ _ _ _ _ => n

/-- The `expr` field of a serialized node. -/
def SNode.expr : SNode → String
  | .mk _ e _ _ _ _ => e

/-- The `value` field (`repr(result)`) of a serialized node. -/
def SNode.value : SNode → String
  | .mk _ _ v _ _ _ => v

/-- The `type` field of a serialized node. -/
def SNode.tname : SNode → String
  | .mk _ _ _ t _ _ => t

/-- The `has_childs` field of a serialized node. -/
def SNode.has_childs : SNode → Bool
  | .mk _ _ _ _ h _ => h

/-- The `childs` key of a serialized node. -/
def SNode.childs : SNode → SChilds
  | .mk _ _ _ _ _ c => c

/-- Convert a serialized child list to a Lean list. -/
def SNodeList.toList : SNodeList → List SNode
  | .nil => []
  | .cons n rest => n :: rest.toList

/-- The children a node carries: the `childs` list when the key is
present, nothing otherwise. -/
def SNode.childrenL (n : SNode) : List SNode :=
  match n.childs with
  | .absent => []
  | .present l => l.toList

mutual
/-- `GenericSerializer.serialize(name, expr, result, depth)`:

    s_res = {}
    s_res['name'] = name
    s_res['expr'] = expr
    s_res['value'] = repr(result)
    result_type = type(result)
    s_res['type'] = result_type.__name__
    s_res['has_childs'] = False
    if not result_type in GenericSerializer.plain_types:
        s_res['has_childs'] = True
    if depth == 0 or not s_res['has_childs']:
        return s_res
    s_res['childs'] = []
    if isinstance(result, dict): ...        # one child per entry
    elif isinstance(result, list) or isinstance(result, tuple): ...
    else: ...                               # one child per dir() attribute

The catch-all arm of the final `match` is unreachable: every value it
would cover is a plain type, for which the function has already
returned (`not s_res['has_childs']`). -/
def serialize (name : PyVal) (expr : String) (result : PyVal) (depth : Nat) :
    SNode :=
  let value := reprPy result
  let tname := typeNameOf result
  let has_childs := !isPlainType result
  if depth = 0 || !has_childs then
    .mk name expr value tname has_childs .absent
  else
    match result with
    | .vdict entries =>
      .mk name expr value tname has_childs
        (.present (serializeEntries expr entries (depth - 1)))
    | .vlist elems =>
      .mk name expr value tname has_childs
        (.present (serializeElems expr 0 elems (depth - 1)))
    | .vtuple elems =>
      .mk name expr value tname has_childs
        (.present (serializeElems expr 0 elems (depth - 1)))
    | .vinst _ attrs =>
      .mk name expr value tname has_childs
        (.present (serializeAttrs expr attrs (depth - 1)))
    | _ =>
      .mk name expr value tname has_childs (.present .nil)

/-- The dict branch: for each entry `(key, val)` a child
`serialize(key, "({expr})[{repr(key)}]", val, depth - 1)` (the brace
placeholders stand for the interpolated pieces). -/
def serializeEntries (expr : String) (l : PyEntries) (depth : Nat) : SNodeList :=
  match l with
  | .nil => .nil
  | .cons key val rest =>
    .cons (serialize key ("(" ++ expr ++ ")[" ++ reprPy key ++ "]") val depth)
          (serializeEntries expr rest depth)

/-- The list/tuple branch: for each `(key, val)` of `enumerate(result)`
a child `serialize(key, "({expr})[{repr(key)}]", val, depth - 1)`. -/
def serializeElems (expr : String) (idx : Nat) (l : PyVals) (depth : Nat) :
    SNodeList :=
  match l with
  | .nil => .nil
  | .cons val rest =>
    .cons (serialize (.vint idx)
            ("(" ++ expr ++ ")[" ++ reprPy (.vint idx) ++ "]") val depth)
          (serializeElems expr (idx + 1) rest depth)

/-- The object branch: for each attribute of `dir(result)`, skipped
when its name starts with an underscore
(`attr.startswith('__') or attr.startswith('_')`) or when `getattr`
raises (`except Exception: pass`); otherwise a child
`serialize(attr, "({expr}).{attr}", val, depth - 1)`. -/
def serializeAttrs (expr : String) (l : PyAttrs) (depth : Nat) : SNodeList :=
  match l with
  | .nil => .nil
  | .consOk attr val rest =>
    if attr.startsWith "__" || attr.startsWith "_" then
      serializeAttrs expr rest depth
    else
      .cons (serialize (.vstr attr) ("(" ++ expr ++ ")." ++ attr) val depth)
            (serializeAttrs expr rest depth)
  | .consErr _ rest => serializeAttrs expr rest depth
end

/-- Membership of a node in the tree rooted at another node (reflexive,
through the carried children). -/
inductive InTree : SNode → SNode → Prop where
  | refl (n : SNode) : InTree n n
  | step {m c n : SNode} : c ∈ n.childrenL → InTree m c → InTree m n

/-- Modelled from the spec: the classification "plain scalar (boolean,
numeric, text, none/null, raw file-handle-like, type-object,
slice-like)" of spec section 4.4, as a predicate on embedded values —
booleans, the numeric values (`int`/`long`/`float`), text (`str`),
`None`, the raw file-handle-like values (`file`, `buffer`), type
objects, and slices. -/
def specPlainScalar : PyVal → Bool
  | .vbool _ => true
  | .vint _ => true
  | .vfloat _ => true
  | .vstr _ => true
  | .vnone => true
  | .vfile => true
  | .vbuffer => true
  | .vtype _ => true
  | .vslice => true
  | _ => false

/-! Concrete fixtures used by witnesses and counterexamples. -/

/-- Fixture: an `os.path.abspath` oracle that is the identity (every
path already absolute). -/
def sampleAbspath : String → String := fun s => s

/-- Fixture: a session whose registry holds a breakpoint at `a.py:3`. -/
def sampleDbg : Ndb3 :=
  { s_file := "script.py", state := .paused, messages := [],
    breakpoints := [("a.py", [3])], abspath := sampleAbspath }

/-- Fixture: an outermost frame (`f`, no caller) at `a.py:10`. -/
def frameMain : Frame := ⟨⟨0, "a.py", 10⟩, []⟩

/-- Fixture: a frame for `g` at `a.py:3`, called from `frameMain`. -/
def frameG : Frame := ⟨⟨1, "a.py", 3⟩, [⟨0, "a.py", 10⟩]⟩

/-- Fixture: a bottom frame at `a.py:3` with no caller
(`f_back is None`). -/
def frameBottom : Frame := ⟨⟨2, "a.py", 3⟩, []⟩

/-- Fixture: a thread controller in `STEP_INTO` mode. -/
def tInto : Ndb3Thread :=
  { tid := 1, name := "MainThread", f_origin := some frameMain,
    f_current := some frameG, f_stop := none, f_cmd := some .stepInto,
    state := .running, debugger := some sampleDbg }

/-- Fixture: a thread controller in `STEP_OVER` mode whose stop-target
frame is `frameG`. -/
def tOver : Ndb3Thread :=
  { tid := 1, name := "MainThread", f_origin := some frameMain,
    f_current := some frameG, f_stop := some frameG, f_cmd := some .stepOver,
    state := .running, debugger := some sampleDbg }

/-- Fixture: a thread controller in `STEP_OUT` mode whose stop-target
frame is `frameG`. -/
def tOut : Ndb3Thread :=
  { tid := 1, name := "MainThread", f_origin := some frameMain,
    f_current := some frameG, f_stop := some frameG, f_cmd := some .stepOut,
    state := .running, debugger := some sampleDbg }

/-- Fixture: a thread controller in `RUN` mode. -/
def tRun : Ndb3Thread :=
  { tid := 1, name := "MainThread", f_origin := some frameMain,
    f_current := some frameG, f_stop := none, f_cmd := some .run,
    state := .running, debugger := some sampleDbg }

/-- Fixture: a terminated thread controller, exactly as `stop()` leaves
one. -/
def tDead : Ndb3Thread :=
  { tid := 1, name := "MainThread", f_origin := none,
    f_current := none, f_stop := none, f_cmd := none,
    state := .terminated, debugger := none }

/-- Fixture: the inner mapping with key c. -/
def dictC : PyVal := .vdict (.cons (.vstr "c") (.vint 1) .nil)

/-- Fixture: the middle mapping with key b. -/
def dictB : PyVal := .vdict (.cons (.vstr "b") dictC .nil)

/-- Fixture: the nested mapping of the depth-bound test case. -/
def dictA : PyVal := .vdict (.cons (.vstr "a") dictB .nil)

/-- Fixture: the serializer root of the depth-bound test case,
`serialize("x", "x", dictA, 1)`. -/
def c3root : SNode := serialize (.vstr "x") "x" dictA 1

/-- Fixture: the child node that `c3root` carries. -/
def c3child : SNode :=
  serialize (.vstr "a") ("(x)[" ++ reprPy (.vstr "a") ++ "]") dictB 0

/-- Fixture: a `compile` oracle that always succeeds. -/
def sampleCompile : String → Except PyRaise Code := fun s => .ok ⟨s⟩

/-- Fixture: an `exec` oracle that always succeeds. -/
def sampleExec : Code → Frame → Except PyRaise Unit := fun _ _ => .ok ()

/-- Fixture: an `eval` oracle that always succeeds with `None`. -/
def sampleEval : String → Frame → Except PyRaise PyVal := fun _ _ => .ok .vnone

/-- Fixture: a freshly constructed `DebuggerMaster` on which `connect`
has never been invoked (`self.slave = None`). -/
def mDisc : DebuggerMaster := { host := "localhost", port := 8000, slave := none }

/-! Theorems. -/

theorem bpLookup_bpUpdate_self {key : String} {ls0 : List Nat}
    (ls : List Nat) {l : List (String × List Nat)}
    (h : bpLookup key l = some ls0) :
    bpLookup key (bpUpdate key ls l) = some ls := by
  induction l with
  | nil => simp [bpLookup] at h
  | cons hd tl ih =>
    obtain ⟨p0, l0⟩ := hd
    by_cases hp : p0 = key
    · subst hp
      simp [bpLookup, bpUpdate]
    · simp only [bpLookup, bpUpdate, if_neg hp] at h ⊢
      exact ih h

theorem bpLookup_bpUpdate_ne {key p : String} (ls : List Nat)
    (l : List (String × List Nat)) (h : p ≠ key) :
    bpLookup p (bpUpdate key ls l) = bpLookup p l := by
  induction l with
  | nil => simp [bpLookup, bpUpdate]
  | cons hd tl ih =>
    obtain ⟨p0, l0⟩ := hd
    by_cases hp : p0 = key
    · subst hp
      have hp2 : p0 ≠ p := fun hq => h hq.symm
      simp [bpLookup, bpUpdate, hp2]
    · simp only [bpUpdate, if_neg hp, bpLookup]
      by_cases hq : p0 = p <;> simp [hq, ih]

theorem bpLookup_append_one (l : List (String × List Nat))
    (path p : String) (ls : List Nat) :
    bpLookup p (l ++ [(path, ls)]) =
      match bpLookup p l with
      | some x => some x
      | none => if p = path then some ls else none := by
  induction l with
  | nil =>
    by_cases h : path = p
    · subst h
      simp [bpLookup]
    · have h2 : ¬ p = path := fun hq => h hq.symm
      simp [bpLookup, h, h2]
  | cons hd tl ih =>
    obtain ⟨p0, l0⟩ := hd
    by_cases hq : p0 = p <;> simp [bpLookup, hq, ih]

theorem abspath_set_breakpoint (d : Ndb3) (p : String) (line : Nat) :
    (d.set_breakpoint p line).abspath = d.abspath := by
  simp only [Ndb3.set_breakpoint]
  split
  · split <;> rfl
  · rfl

theorem breakpoints_set_breakpoint (d : Ndb3) (p : String) (line : Nat) :
    (d.set_breakpoint p line).breakpoints =
      match bpLookup (d.abspath p) d.breakpoints with
      | some lines =>
        if line ∈ lines then d.breakpoints
        else bpUpdate (d.abspath p) (lines ++ [line]) d.breakpoints
      | none => d.breakpoints ++ [(d.abspath p, [line])] := by
  simp only [Ndb3.set_breakpoint]
  split
  · split <;> simp_all
  · simp_all

theorem bpLookup_set_breakpoint (d : Ndb3) (p : String) (line : Nat) :
    ∃ ls, bpLookup (d.abspath p) (d.set_breakpoint p line).breakpoints = some ls ∧
      line ∈ ls := by
  rw [breakpoints_set_breakpoint]
  cases h : bpLookup (d.abspath p) d.breakpoints with
  | some lines =>
    by_cases hm : line ∈ lines
    · exact ⟨lines, by simp only [hm, if_pos]; exact h, hm⟩
    · exact ⟨lines ++ [line], by simp only [hm, if_neg, not_false_iff]
                                 exact bpLookup_bpUpdate_self _ h, by simp⟩
  | none =>
    refine ⟨[line], ?_, by simp⟩
    simp [bpLookup_append_one, h]

/-- Claim C8 — breakpoint path normalization round-trips: whenever two
paths normalize (through `os.path.abspath`) to the same absolute file,
setting a breakpoint through one path makes `is_breakpoint` answer
`True` through the other; and `is_breakpoint` on a path for which the
registry holds no entry answers `False`. -/
theorem claim_C8 :
    (∀ (d : Ndb3) (p1 p2 : String) (line : Nat),
      d.abspath p1 = d.abspath p2 →
      (d.set_breakpoint p1 line).is_breakpoint p2 line = true) ∧
    (∀ (d : Ndb3) (p : String) (line : Nat),
      bpLookup (d.abspath p) d.breakpoints = none →
      d.is_breakpoint p line = false) := by
  constructor
  · intro d p1 p2 line hp
    obtain ⟨ls, hls, hmem⟩ := bpLookup_set_breakpoint d p1 line
    simp only [Ndb3.is_breakpoint, abspath_set_breakpoint, ← hp, hls]
    simpa using hmem
  · intro d p line h
    simp only [Ndb3.is_breakpoint, h]

/-- Witness for C8 at concrete inputs. -/
theorem claim_C8_witness :
    ((sampleDbg.set_breakpoint "b.py" 7).is_breakpoint "b.py" 7 = true) ∧
    (sampleDbg.is_breakpoint "c.py" 1 = false) :=
  ⟨claim_C8.1 sampleDbg "b.py" "b.py" 7 rfl,
   claim_C8.2 sampleDbg "c.py" 1 rfl⟩

/-- The registry invariant every reachable `Ndb3` satisfies (the
`_breakpoints` dict starts empty and is only written by
`set_breakpoint`): no path maps to a line list with duplicates. -/
def regNoDup (d : Ndb3) : Prop :=
  ∀ p ls, bpLookup p d.breakpoints = some ls → ls.Nodup

theorem regNoDup_set_breakpoint {d : Ndb3} (p : String) (line : Nat)
    (h : regNoDup d) : regNoDup (d.set_breakpoint p line) := by
  intro q ls hq
  rw [breakpoints_set_breakpoint] at hq
  cases h0 : bpLookup (d.abspath p) d.breakpoints with
  | some lines =>
    rw [h0] at hq
    dsimp only at hq
    by_cases hm : line ∈ lines
    · rw [if_pos hm] at hq
      exact h q ls hq
    · rw [if_neg hm] at hq
      by_cases hqp : q = d.abspath p
      · subst hqp
        rw [bpLookup_bpUpdate_self _ h0] at hq
        cases hq
        refine (h _ _ h0).append (List.nodup_singleton line) ?_
        intro a ha hb
        rw [List.mem_singleton] at hb
        subst hb
        exact hm ha
      · rw [bpLookup_bpUpdate_ne _ _ hqp] at hq
        exact h q ls hq
  | none =>
    rw [h0] at hq
    dsimp only at hq
    rw [bpLookup_append_one] at hq
    cases h1 : bpLookup q d.breakpoints with
    | some x =>
      rw [h1] at hq
      cases hq
      exact h q _ h1
    | none =>
      rw [h1] at hq
      by_cases hqp : q = d.abspath p
      · rw [if_pos hqp] at hq
        cases hq
        exact List.nodup_singleton line
      · rw [if_neg hqp] at hq
        cases hq

/-- Claim C9 — `set_breakpoint` is idempotent: starting from any
registry satisfying the no-duplicate invariant, setting the same
`(path, line)` twice preserves the invariant and leaves exactly one
entry for that line in the normalized path's line list. -/
theorem claim_C9 :
    ∀ (d : Ndb3) (p : String) (line : Nat), regNoDup d →
      regNoDup ((d.set_breakpoint p line).set_breakpoint p line) ∧
      ∃ ls, bpLookup (d.abspath p)
              ((d.set_breakpoint p line).set_breakpoint p line).breakpoints = some ls ∧
            ls.count line = 1 := by
  intro d p line h
  refine ⟨regNoDup_set_breakpoint p line (regNoDup_set_breakpoint p line h), ?_⟩
  obtain ⟨ls, hls, hmem⟩ :=
    bpLookup_set_breakpoint (d.set_breakpoint p line) p line
  rw [abspath_set_breakpoint] at hls
  refine ⟨ls, hls, ?_⟩
  have hnd : ls.Nodup :=
    regNoDup_set_breakpoint p line (regNoDup_set_breakpoint p line h)
      (d.abspath p) ls hls
  exact List.count_eq_one_of_mem hnd hmem

/-- Witness for C9 at concrete inputs. -/
theorem claim_C9_witness :
    regNoDup ((sampleDbg.set_breakpoint "a.py" 3).set_breakpoint "a.py" 3) ∧
    ∃ ls, bpLookup (sampleDbg.abspath "a.py")
            ((sampleDbg.set_breakpoint "a.py" 3).set_breakpoint "a.py" 3).breakpoints =
          some ls ∧ ls.count 3 = 1 :=
  claim_C9 sampleDbg "a.py" 3 (by
    intro p ls h
    simp only [sampleDbg, bpLookup] at h
    by_cases hp : "a.py" = p
    · rw [if_pos hp] at h
      cases h
      exact List.nodup_singleton 3
    · rw [if_neg hp] at h
      cases h)

/-- Claim C1 — stop-condition evaluation follows the spec's priority
rules: on a `return` event `_stop_frame` yields the caller frame
`frame.f_back` as the stop point (and records it as the new current
frame) when the mode is `STEP_INTO`, or when the mode is `STEP_OVER` or
`STEP_OUT` and the returning frame is the recorded stop-target frame;
on a `line` event it yields the current frame when the mode is
`STEP_INTO`, or when the mode is `STEP_OVER` and the frame is the
recorded stop-target frame. -/
theorem claim_C1 :
    ∀ (t : Ndb3Thread) (frame : Frame),
      (t.f_cmd = some .stepInto →
        (t.stop_frame frame .ret).2 = .ok frame.back ∧
        (t.stop_frame frame .ret).1.f_current = frame.back) ∧
      ((t.f_cmd = some .stepOver ∨ t.f_cmd = some .stepOut) →
        t.f_stop = some frame →
        (t.stop_frame frame .ret).2 = .ok frame.back ∧
        (t.stop_frame frame .ret).1.f_current = frame.back) ∧
      (t.f_cmd = some .stepInto →
        (t.stop_frame frame .line).2 = .ok (some frame)) ∧
      (t.f_cmd = some .stepOver → t.f_stop = some frame →
        (t.stop_frame frame .line).2 = .ok (some frame)) := by
  intro t frame
  refine ⟨?_, ?_, ?_, ?_⟩
  · intro h
    simp [Ndb3Thread.stop_frame, h]
  · intro h hs
    rcases h with h | h <;> simp [Ndb3Thread.stop_frame, h, hs]
  · intro h
    simp [Ndb3Thread.stop_frame, h]
  · intro h hs
    simp [Ndb3Thread.stop_frame, h, hs]

/-- Witness for C1: the four rules at concrete controllers (`tInto` in
`STEP_INTO` mode, `tOver` in `STEP_OVER` mode with stop target
`frameG`, `tOut` in `STEP_OUT` mode with stop target `frameG`). -/
theorem claim_C1_witness :
    ((Ndb3Thread.stop_frame tInto frameG .ret).2 = .ok frameG.back ∧
     (Ndb3Thread.stop_frame tInto frameG .ret).1.f_current = frameG.back) ∧
    ((Ndb3Thread.stop_frame tOver frameG .ret).2 = .ok frameG.back ∧
     (Ndb3Thread.stop_frame tOver frameG .ret).1.f_current = frameG.back) ∧
    ((Ndb3Thread.stop_frame tOut frameG .ret).2 = .ok frameG.back ∧
     (Ndb3Thread.stop_frame tOut frameG .ret).1.f_current = frameG.back) ∧
    (Ndb3Thread.stop_frame tInto frameG .line).2 = .ok (some frameG) ∧
    (Ndb3Thread.stop_frame tOver frameG .line).2 = .ok (some frameG) :=
  ⟨(claim_C1 tInto frameG).1 rfl,
   (claim_C1 tOver frameG).2.1 (Or.inl rfl) rfl,
   (claim_C1 tOut frameG).2.1 (Or.inr rfl) rfl,
   (claim_C1 tInto frameG).2.2.1 rfl,
   (claim_C1 tOver frameG).2.2.2 rfl rfl⟩

/-- Counterexample to claim C2 as stated.  Take a controller in
`STEP_INTO` mode (`tInto`, debugger `sampleDbg` with a breakpoint at
`a.py:3`) and a `return` event on `frameBottom`, a frame at `a.py:3`
whose `f_back` is `None`: the step-mode rules designate no stop point
(`step_rule_frame` is `none`, since the `STEP_INTO` return rule yields
the null caller), and the frame's `(file, line)` is a registered
breakpoint, yet `_stop_frame` returns `None` — the early
`return frame.f_back` skips the breakpoint check. -/
theorem claim_C2_counterexample :
    ¬ (∀ (t : Ndb3Thread) (dbg : Ndb3) (frame : Frame) (event : Event),
        t.step_rule_frame frame event = none →
        t.debugger = some dbg →
        dbg.is_breakpoint frame.filename frame.lineno = true →
        (t.stop_frame frame event).2 = .ok (some frame)) := by
  intro h
  have h2 := h tInto sampleDbg frameBottom .ret rfl rfl rfl
  have h3 : (Ndb3Thread.stop_frame tInto frameBottom .ret).2 = .ok none := rfl
  rw [h3] at h2
  exact Option.noConfusion (Except.ok.inj h2)

/-- Claim C2, amended — for every frame and trace event on which no
step-mode rule of `_stop_frame` fires (none of its early-return guards
matches), if the frame's `(file, line)` pair is a registered breakpoint
then `_stop_frame` yields that frame as the stop point, regardless of
the current step mode and including on `call` events; when a
return-event step rule does fire, `_stop_frame` instead returns the
caller frame even if that caller is null, skipping the breakpoint
check (see the counterexample). -/
theorem claim_C2_amended :
    ∀ (t : Ndb3Thread) (dbg : Ndb3) (frame : Frame) (event : Event),
      ¬ t.step_rule_fires frame event →
      t.debugger = some dbg →
      dbg.is_breakpoint frame.filename frame.lineno = true →
      (t.stop_frame frame event).2 = .ok (some frame) ∧
      (t.stop_frame frame event).1 = t := by
  intro t dbg frame event hfire hdbg hbp
  have hbc : t.bp_check frame = .ok true := by
    simp [Ndb3Thread.bp_check, hdbg, hbp]
  unfold Ndb3Thread.step_rule_fires at hfire
  have h1 : ¬ (event = .ret ∧ t.f_cmd = some .stepInto) := by tauto
  have h2 : ¬ (event = .ret ∧ (t.f_cmd = some .stepOver ∨ t.f_cmd = some .stepOut) ∧
      t.f_stop = some frame) := by tauto
  have h3 : ¬ (event = .line ∧ t.f_cmd = some .stepInto) := by tauto
  have h4 : ¬ (event = .line ∧ t.f_cmd = some .stepOver ∧ t.f_stop = some frame) := by
    tauto
  unfold Ndb3Thread.stop_frame
  simp only [if_neg h1, if_neg h2, if_neg h3, if_neg h4, hbc]
  exact ⟨trivial, trivial⟩

/-- Witness for the amended C2: a controller in `RUN` mode (no step rule
fires) on a `call` event at a frame whose `(file, line)` is the
registered breakpoint `a.py:3`. -/
theorem claim_C2_amended_witness :
    (Ndb3Thread.stop_frame tRun frameG .call).2 = .ok (some frameG) ∧
    (Ndb3Thread.stop_frame tRun frameG .call).1 = tRun :=
  claim_C2_amended tRun sampleDbg frameG .call
    (fun h => by rcases h with ⟨h, _⟩ | ⟨h, _⟩ <;> exact Event.noConfusion h)
    rfl rfl

/-- Counterexample to claim C5 as stated: `tDead` is a controller in
state `TERMINATED` (exactly as `stop()` leaves one), yet `resume`,
`step_over`, `step_into` and `step_out` each move its state to
`RUNNING` — the commands assign `self._state = STATE_RUNNING`
unconditionally. -/
theorem claim_C5_counterexample :
    tDead.state = .terminated ∧
    (Ndb3Thread.resume tDead).1.state = .running ∧
    (Ndb3Thread.step_over tDead).state = .running ∧
    (Ndb3Thread.step_into tDead).state = .running ∧
    (Ndb3Thread.step_out tDead).state = .running :=
  ⟨rfl, rfl, rfl, rfl, rfl⟩

/-- Claim C5, amended — `TERMINATED` is terminal only with respect to
trace events: a controller whose state is `TERMINATED` still has state
`TERMINATED` after any further `trace_dispatch` call; the command
methods `resume`, `step_over`, `step_into` and `step_out`, however,
set the state to `RUNNING` unconditionally, even on a terminated
controller. -/
theorem claim_C5_amended :
    (∀ (t : Ndb3Thread) (frame : Frame) (event : Event),
      t.state = .terminated →
      ((t.trace_dispatch frame event).1).state = .terminated) ∧
    (∀ t : Ndb3Thread,
      (t.resume).1.state = .running ∧
      (t.step_over).state = .running ∧
      (t.step_into).state = .running ∧
      (t.step_out).state = .running) := by
  constructor
  · intro t frame event h
    by_cases hg : event = .ret ∧ t.f_origin = some frame
    · cases hd : t.debugger <;>
        simp [Ndb3Thread.trace_dispatch, Ndb3Thread.stop, hg, hd, h]
    · simp [Ndb3Thread.trace_dispatch, hg, h]
  · intro t
    exact ⟨rfl, rfl, rfl, rfl⟩

/-- Witness for the amended C5: a trace event on the terminated
controller `tDead` leaves it terminated, and the step commands on it
yield state `RUNNING`. -/
theorem claim_C5_amended_witness :
    ((Ndb3Thread.trace_dispatch tDead frameG .line).1).state = .terminated ∧
    (Ndb3Thread.resume tDead).1.state = .running :=
  ⟨claim_C5_amended.1 tDead frameG .line rfl, (claim_C5_amended.2 tDead).1⟩

/-- Claim C7 (code bug evaluation) — `get_stack` never returns the
stack walk: its first statement `index_f = self._f_current()` calls the
frame object held in `_f_current` (or `None`), neither of which is
callable, so every call raises `TypeError`; in particular it does so on
the concrete controller `tOver`, which is paused at `frameG` with a
two-frame chain whose expected walk would be
`[("a.py", 10), ("a.py", 3)]`. -/
theorem claim_C7 :
    Ndb3Thread.get_stack tOver = .error .typeError ∧
    stack_walk tOver.f_current = [("a.py", 10), ("a.py", 3)] ∧
    ∀ t : Ndb3Thread, t.get_stack = .error .typeError := by
  refine ⟨rfl, rfl, ?_⟩
  intro t
  cases h : t.f_current <;> simp [Ndb3Thread.get_stack, pyCallFrameOpt, h]

/-- Claim C4 — `evaluate` and `execute` never raise past their
boundary: whatever the oracle outcomes for `eval` / `compile` / `exec`
(including the `AttributeError` arising when `_f_current` is `None`,
which occurs inside the `try` block), both methods return a captured
result (`Except.ok`), and `execute` returns the empty-string success
marker when the statement compiles and runs without fault. -/
theorem claim_C4 :
    (∀ (α : Type) (pyEval : String → Frame → Except PyRaise α)
        (t : Ndb3Thread) (expr : String),
      ∃ r, t.evaluate pyEval expr = .ok r) ∧
    (∀ (pyCompile : String → Except PyRaise Code)
        (pyExec : Code → Frame → Except PyRaise Unit)
        (t : Ndb3Thread) (stmt : String),
      (∃ r, t.execute pyCompile pyExec stmt = .ok r) ∧
      (∀ (c : Code) (f : Frame), pyCompile stmt = .ok c → t.f_current = some f →
        pyExec c f = .ok () →
        t.execute pyCompile pyExec stmt = .ok .emptyStr)) := by
  constructor
  · intro α pyEval t expr
    simp only [Ndb3Thread.evaluate]
    cases t.f_current with
    | none => exact ⟨_, rfl⟩
    | some f =>
      dsimp only
      cases pyEval expr f with
      | ok v => exact ⟨_, rfl⟩
      | error e => cases e <;> exact ⟨_, rfl⟩
  · intro pyCompile pyExec t stmt
    constructor
    · simp only [Ndb3Thread.execute]
      cases pyCompile stmt with
      | error e => cases e <;> exact ⟨_, rfl⟩
      | ok c =>
        dsimp only
        cases t.f_current with
        | none => exact ⟨_, rfl⟩
        | some f =>
          dsimp only
          cases pyExec c f with
          | ok u => exact ⟨_, rfl⟩
          | error e => cases e <;> exact ⟨_, rfl⟩
    · intro c f hc hf he
      simp [Ndb3Thread.execute, hc, hf, he]

/-- Witness for C4: concrete always-succeeding oracles on the concrete
controller `tRun` (whose current frame is `frameG`). -/
theorem claim_C4_witness :
    Ndb3Thread.execute sampleCompile sampleExec tRun "pass" = .ok .emptyStr :=
  (claim_C4.2 sampleCompile sampleExec tRun "pass").2 ⟨"pass"⟩ frameG rfl rfl rfl

/-- Counterexample to claim C10 as stated: on the freshly constructed
master `mDisc` (slave proxy unset), `get_events` does not return `None`
— the call-site attribute lookup `self.slave.get_events` raises
`AttributeError` before `__safe_call`'s `None` guard can run. -/
theorem claim_C10_counterexample :
    ¬ (∀ (m : DebuggerMaster), m.slave = none →
        m.get_events = .ok none ∧
        (∀ a b, m.set_break a b = .ok none) ∧
        m.debug_stop = .ok none ∧
        m.debug_over = .ok none ∧
        m.debug_into = .ok none ∧
        m.debug_out = .ok none ∧
        m.debug_continue = .ok none ∧
        (∀ x, m.debug_eval x = .ok none) ∧
        (∀ x, m.debug_exec x = .ok none)) := by
  intro h
  have h2 := (h mDisc rfl).1
  have h3 : mDisc.get_events = .error .attributeError := rfl
  rw [h3] at h2
  exact Except.noConfusion h2

/-- Claim C10, amended — every command method of `DebuggerMaster`
called while the slave proxy is unset performs no remote call but
raises `AttributeError` (the remote-method attribute is looked up on
the `None` proxy at the call site, before `__safe_call`'s guard could
return `None`). -/
theorem claim_C10_amended :
    ∀ (m : DebuggerMaster), m.slave = none →
      m.get_events = .error .attributeError ∧
      (∀ a b, m.set_break a b = .error .attributeError) ∧
      m.debug_stop = .error .attributeError ∧
      m.debug_over = .error .attributeError ∧
      m.debug_into = .error .attributeError ∧
      m.debug_out = .error .attributeError ∧
      m.debug_continue = .error .attributeError ∧
      (∀ x, m.debug_eval x = .error .attributeError) ∧
      (∀ x, m.debug_exec x = .error .attributeError) := by
  intro m h
  refine ⟨?_, fun a b => ?_, ?_, ?_, ?_, ?_, ?_, fun x => ?_, fun x => ?_⟩ <;>
    simp [DebuggerMaster.get_events, DebuggerMaster.set_break,
      DebuggerMaster.debug_stop, DebuggerMaster.debug_over,
      DebuggerMaster.debug_into, DebuggerMaster.debug_out,
      DebuggerMaster.debug_continue, DebuggerMaster.debug_eval,
      DebuggerMaster.debug_exec, DebuggerMaster.callReturning,
      DebuggerMaster.callDiscarding, DebuggerMaster.slaveAttr, h]

/-- Witness for the amended C10 on the concrete master `mDisc`. -/
theorem claim_C10_amended_witness :
    mDisc.get_events = .error .attributeError ∧
    mDisc.debug_eval (.vstr "1+1") = .error .attributeError :=
  ⟨(claim_C10_amended mDisc rfl).1,
   (claim_C10_amended mDisc rfl).2.2.2.2.2.2.2.1 (.vstr "1+1")⟩

theorem serialize_has_childs (n : PyVal) (e : String) (v : PyVal) (d : Nat) :
    (serialize n e v d).has_childs = !isPlainType v := by
  simp only [serialize.eq_def]
  split
  · rfl
  · split <;> rfl

theorem serialize_childs_absent_of_plain (n : PyVal) (e : String) (v : PyVal)
    (d : Nat) (h : isPlainType v = true) : (serialize n e v d).childs = .absent := by
  simp [serialize.eq_def, h, SNode.childs]

theorem serialize_zero_childs (n : PyVal) (e : String) (v : PyVal) :
    (serialize n e v 0).childs = .absent := by
  simp only [serialize.eq_def]
  rfl

theorem serialize_hc_false_absent (n : PyVal) (e : String) (v : PyVal) (d : Nat)
    (h : (serialize n e v d).has_childs = false) :
    (serialize n e v d).childs = .absent := by
  rw [serialize_has_childs] at h
  have h2 : isPlainType v = true := by simpa using h
  exact serialize_childs_absent_of_plain n e v d h2

theorem mem_serializeEntries : ∀ {c : SNode} {e : String} (l : PyEntries)
    {d : Nat}, c ∈ (serializeEntries e l d).toList →
    ∃ n' e' v', c = serialize n' e' v' d
  | c, e, .nil, d, h => by simp [serializeEntries, SNodeList.toList] at h
  | c, e, .cons k v rest, d, h => by
    simp only [serializeEntries, SNodeList.toList, List.mem_cons] at h
    rcases h with h | h
    · exact ⟨k, _, v, h⟩
    · exact mem_serializeEntries rest h

theorem mem_serializeElems : ∀ {c : SNode} {e : String} {idx : Nat}
    (l : PyVals) {d : Nat}, c ∈ (serializeElems e idx l d).toList →
    ∃ n' e' v', c = serialize n' e' v' d
  | c, e, idx, .nil, d, h => by simp [serializeElems, SNodeList.toList] at h
  | c, e, idx, .cons v rest, d, h => by
    simp only [serializeElems, SNodeList.toList, List.mem_cons] at h
    rcases h with h | h
    · exact ⟨_, _, v, h⟩
    · exact mem_serializeElems rest h

theorem mem_serializeAttrs : ∀ {c : SNode} {e : String} (l : PyAttrs)
    {d : Nat}, c ∈ (serializeAttrs e l d).toList →
    ∃ n' e' v', c = serialize n' e' v' d
  | c, e, .nil, d, h => by simp [serializeAttrs, SNodeList.toList] at h
  | c, e, .consOk a v rest, d, h => by
    simp only [serializeAttrs] at h
    split at h
    · exact mem_serializeAttrs rest h
    · simp only [SNodeList.toList, List.mem_cons] at h
      rcases h with h | h
      · exact ⟨_, _, v, h⟩
      · exact mem_serializeAttrs rest h
  | c, e, .consErr a rest, d, h => by
    simp only [serializeAttrs] at h
    exact mem_serializeAttrs rest h

theorem mem_childrenL_serialize {c : SNode} (n : PyVal) (e : String) (v : PyVal)
    (d : Nat) (h : c ∈ (serialize n e v d).childrenL) :
    ∃ n' e' v', c = serialize n' e' v' (d - 1) := by
  cases v <;> rw [serialize.eq_def] at h <;> dsimp only at h <;> split at h <;>
    first
      | exact mem_serializeEntries _ (by simpa [SNode.childrenL, SNode.childs] using h)
      | exact mem_serializeElems _ (by simpa [SNode.childrenL, SNode.childs] using h)
      | exact mem_serializeAttrs _ (by simpa [SNode.childrenL, SNode.childs] using h)
      | simp [SNode.childrenL, SNode.childs, SNodeList.toList] at h

theorem serialize_in_tree_no_childs :
    ∀ (d : Nat) (n : PyVal) (e : String) (v : PyVal) (m : SNode),
      InTree m (serialize n e v d) → m.has_childs = false → m.childrenL = [] := by
  intro d
  induction d using Nat.strong_induction_on with
  | _ d ih =>
    intro n e v m hin hf
    cases hin with
    | refl =>
      have h := serialize_hc_false_absent n e v d hf
      simp [SNode.childrenL, h]
    | step hc hin' =>
      obtain ⟨n', e', v', rfl⟩ := mem_childrenL_serialize n e v d hc
      rcases Nat.eq_zero_or_pos d with hd | hd
      · subst hd
        have h0 := serialize_zero_childs n e v
        simp [SNode.childrenL, h0] at hc
      · exact ih (d - 1) (by omega) n' e' v' m hin' hf

/-- Claim C3 — serialization is depth-bounded: in every tree produced
by `serialize`, a node whose `has_childs` field is `False` carries no
children (the `childs` key is never populated for it), and the nodes
produced at the depth bound (remaining depth `0`) carry no children
even when `has_childs` is `True`; in particular, serializing the nested
mapping of `dictA` with `depth = 1` yields a root with exactly one
child, named `"a"`, whose own `has_childs` is `True` and which carries
no children. -/
theorem claim_C3 :
    (∀ (d : Nat) (n : PyVal) (e : String) (v : PyVal) (m : SNode),
      InTree m (serialize n e v d) → m.has_childs = false → m.childrenL = []) ∧
    (∀ (n : PyVal) (e : String) (v : PyVal), (serialize n e v 0).childrenL = []) ∧
    c3root.childrenL = [c3child] ∧
    c3child.name = .vstr "a" ∧
    c3child.has_childs = true ∧
    c3child.childrenL = [] := by
  refine ⟨serialize_in_tree_no_childs, ?_, rfl, rfl, rfl, rfl⟩
  intro n e v
  simp [SNode.childrenL, serialize_zero_childs]

/-- Witness for C3: the tree-membership invariant applied at a concrete
node (the root of serializing `True` at depth `0`, whose `has_childs`
is `False`). -/
theorem claim_C3_witness :
    (serialize (.vstr "w") "w" (.vbool true) 0).childrenL = [] :=
  claim_C3.1 0 (.vstr "w") "w" (.vbool true)
    (serialize (.vstr "w") "w" (.vbool true) 0) (InTree.refl _) rfl

/-- Claim C6 — every value the spec classifies as a plain scalar
(boolean, numeric, text, none/null, raw file-handle-like, type-object,
slice-like) serializes to a node with `has_childs = False` and no
children, at every depth. -/
theorem claim_C6 :
    ∀ (n : PyVal) (e : String) (v : PyVal) (d : Nat),
      specPlainScalar v = true →
      (serialize n e v d).has_childs = false ∧
      (serialize n e v d).childrenL = [] := by
  intro n e v d h
  have hp : isPlainType v = true := by
    cases v <;> simp_all [specPlainScalar, isPlainType]
  constructor
  · rw [serialize_has_childs, hp]
    rfl
  · simp [SNode.childrenL, serialize_childs_absent_of_plain n e v d hp]

/-- Witness for C6 at a concrete numeric value. -/
theorem claim_C6_witness :
    (serialize (.vstr "n") "e" (.vint 7) 1).has_childs = false ∧
    (serialize (.vstr "n") "e" (.vint 7) 1).childrenL = [] :=
  claim_C6 (.vstr "n") "e" (.vint 7) 1 rfl
